import Mathlib

/-!
Verification of the folium templating core (src/folium/folium.py).

The source is a single Python class: a mutable map context holding a
template-variable mapping, per-kind marker counters, a tile-provider table
and a map-type tag, plus mutator methods and a final template-dispatch
build step.  We embed the class shallowly: the object state becomes a
structure, each method becomes a state-passing function, Python dicts
become association lists with update-in-place semantics, and Python
exceptions become an explicit error type threaded through Except.  Python
exceptions of different classes (ValueError, KeyError, IndexError,
TypeError) are kept distinct, since several specified behaviours hinge on
which class of error escapes a call.  The ValueError raised by the source
is what the specification names ConfigurationError.
-/

namespace Folium

/-- Errors mirroring the Python exception classes this module can raise.
The specification's ConfigurationError corresponds to the source's
explicit ValueError raises. -/
inductive MapError where
  | valueError (msg : String)
  | keyError (key : String)
  | indexError (msg : String)
  | typeError (msg : String)
deriving DecidableEq, Repr

/-- Modelled from the spec: the marker factory module (imported as mk in
the source) is not under src/.  Per the spec it is a set of pure functions
that, given marker parameters and an externally supplied sequence index,
produce a directive whose rendered name embeds the marker kind and the
index; once rendered to its string fragment it is immutable. -/
structure MarkerDirective where
  name : String
  fragment : String
deriving DecidableEq, Repr

/-- Values that can sit in the template-variable mapping: numbers,
strings, and the ordered list of marker fragments.  The Python value None
is its own variant since it can be passed into a sub-template render. -/
inductive Value where
  | num (n : Int)
  | str (s : String)
  | noneV
  | markers (ms : List MarkerDirective)
deriving DecidableEq, Repr

/-- Python dict lookup on an association list: first binding wins
(bindings are kept unique by alistSet). -/
def alistGet? {α : Type} (d : List (String × α)) (k : String) : Option α :=
  match d with
  | [] => none
  | (k2, v) :: rest => if k2 = k then some v else alistGet? rest k

/-- Python dict .get with a default value. -/
def alistGetD {α : Type} (d : List (String × α)) (k : String) (dflt : α) : α :=
  (alistGet? d k).getD dflt

/-- Python dict assignment: overwrite the binding in place if the key is
present, otherwise append the new binding at the end (insertion order). -/
def alistSet {α : Type} (d : List (String × α)) (k : String) (v : α) :
    List (String × α) :=
  match d with
  | [] => [(k, v)]
  | (k2, v2) :: rest =>
      if k2 = k then (k, v) :: rest else (k2, v2) :: alistSet rest k v

/-- Python dict .pop: remove the binding for a key. -/
def alistPop {α : Type} (d : List (String × α)) (k : String) :
    List (String × α) :=
  d.filter (fun kv => kv.1 ≠ k)

/-- The render-time template-variable mapping of a map context. -/
abbrev Dict := List (String × Value)

/-- Modelled from the spec: template bodies are opaque assets consumed by
name (the templates directory is not under src/).  Rendering is modelled
as a pure function of the template name and the variable mapping that
serializes both into the output, so each substituted parameter appears
verbatim in the rendered fragment. -/
def Value.render : Value → String
  | .num n => toString n
  | .str s => s
  | .noneV => "None"
  | .markers ms => String.join (ms.map (fun d => d.fragment))

/-- Modelled from the spec: pure render dispatch on an opaque template
asset, a function of the template name and the parameter mapping only. -/
def renderTemplate (name : String) (vars : Dict) : String :=
  "<" ++ name ++ ">" ++
    String.join (vars.map (fun kv => "[" ++ kv.1 ++ "=" ++ kv.2.render ++ "]"))

/-- Rendering of a location parameter inside a marker fragment. -/
def renderLoc : Option (List Int) → String
  | none => "None"
  | some l => "[" ++ String.intercalate ", " (l.map toString) ++ "]"

/-- Decimal digit list of a natural number, most significant first. -/
def natDigitsList (n : Nat) : List Char :=
  if _ : n < 10 then [Nat.digitChar n]
  else natDigitsList (n / 10) ++ [Nat.digitChar (n % 10)]
decreasing_by exact Nat.div_lt_self (by omega) (by omega)

/-- Decimal rendering of a natural number, used for the sequence index
embedded in a generated marker name. -/
def natRepr (n : Nat) : String :=
  String.mk (natDigitsList n)

/-- Modelled from the spec: the Simple variant of the marker factory.
The generated name embeds the kind and the caller-supplied sequence
index; the fragment is the pure rendering of the directive fields. -/
def mk.simple_marker (location : Option (List Int)) (popup_txt : String)
    (popup : Bool) (count : Nat) : MarkerDirective :=
  let name := "simple_" ++ natRepr count
  { name := name,
    fragment := "<simple_marker>[name=" ++ name ++ "][location=" ++
      renderLoc location ++ "][popup_txt=" ++ popup_txt ++ "][popup=" ++
      toString popup ++ "]" }

/-- Modelled from the spec: the Circle variant of the marker factory,
with the argument order used at the call site in the source. -/
def mk.circle_marker (location : Option (List Int)) (radius : Int)
    (line_color : String) (fill_color : String) (fill_opacity : Int)
    (popup_txt : String) (popup : Bool) (count : Nat) : MarkerDirective :=
  let name := "circle_" ++ natRepr count
  { name := name,
    fragment := "<circle_marker>[name=" ++ name ++ "][location=" ++
      renderLoc location ++ "][radius=" ++ toString radius ++
      "][line_color=" ++ line_color ++ "][fill_color=" ++ fill_color ++
      "][fill_opacity=" ++ toString fill_opacity ++ "][popup_txt=" ++
      popup_txt ++ "][popup=" ++ toString popup ++ "]" }

/-- Map size slot: the source assigns either a width/height dict or the
string value fullscreen to the same attribute. -/
inductive MapSize where
  | dims (width height : Int)
  | fullscreen
deriving DecidableEq, Repr

/-- Entries of the tile-provider table: built-in providers hold two
template-asset references (keys templ and attr in the source); the
Custom entry registered for an unrecognized selector holds the literal
tile-URL template and the caller-supplied attribution (keys template and
attr in the source). -/
inductive TileEntry where
  | builtin (templ : String) (attr : String)
  | custom (template : String) (attr : Option String)
deriving DecidableEq, Repr

/-- The state of a folium Map object: one field per attribute assigned in
the source.  The HTML field is absent (none) until the build step runs. -/
structure Map where
  map_type : String
  mark_cnt : List (String × Nat)
  location : List Int
  map_size : MapSize
  size_style : String
  template_vars : Dict
  tiles : String
  default_tiles : List String
  tile_types : List (String × TileEntry)
  HTML : Option String
deriving DecidableEq, Repr

/-- Python truthiness of the location argument: None and the empty list
are falsy, a non-empty list is truthy. -/
def locationTruthy : Option (List Int) → Bool
  | none => false
  | some l => !l.isEmpty

/-- Python truthiness of an optional string: None and the empty string
are falsy. -/
def strTruthy : Option String → Bool
  | none => false
  | some s => !(s == "")

/-- Python list indexing, raising IndexError past the end. -/
def pyIndex (l : List Int) (i : Nat) : Except MapError Int :=
  match l.get? i with
  | some v => Except.ok v
  | none => Except.error (.indexError "list index out of range")

/-- Normalization of the tile selector in the source: lower-case, strip,
split on whitespace and join with the empty string; that is, lower-case
every character and drop all whitespace. -/
def normalizeTiles (s : String) : String :=
  String.mk ((s.data.map Char.toLower).filter (fun c => !c.isWhitespace))

/-- Rendered value of the optional API key passed into a built-in tile
body template. -/
def apiKeyValue : Option String → Value
  | none => Value.noneV
  | some k => Value.str k

/-- The built-in provider identifiers, in source order. -/
def defaultTilesList : List String :=
  ["openstreetmap", "mapbox", "cloudmade", "mapboxdark"]

/-- The built-in provider table assembled by the constructor loop: each
identifier is bound to its body and attribution template-asset names. -/
def builtinTileTable : List (String × TileEntry) :=
  defaultTilesList.map
    (fun t => (t, .builtin (t ++ "_tiles.txt") (t ++ "_att.txt")))

/-- Constructor of the Map class, line by line from the source: map-type
tag base, empty counters, location truthiness check (ValueError), size
slot formatting, the initial template-variable dict (indexing the
location can raise IndexError on a malformed one-element location),
fullscreen popping the size slot, tile-selector normalization, the
Cloudmade API-key check (ValueError), the built-in provider table, and
the hit/miss tile resolution (the miss path decodes the attribution,
which on None raises TypeError, then registers the Custom entry).
Failure returns no state, matching a Python constructor that raises. -/
def Map.init (location : Option (List Int)) (width : Int) (height : Int)
    (fullscreen : Bool) (tiles : String) (API_key : Option String)
    (max_zoom : Int) (zoom_start : Int) (attr : Option String) :
    Except MapError Map :=
  if !locationTruthy location then
    Except.error (.valueError
      "You must pass a Lat/Lon location to initialize your map")
  else
    let loc := location.getD []
    let size_style := "style=\"width: " ++ toString width ++
      "px; height: " ++ toString height ++ "px\""
    match pyIndex loc 0, pyIndex loc 1 with
    | Except.error e, _ => Except.error e
    | Except.ok _, Except.error e => Except.error e
    | Except.ok lat, Except.ok lon =>
      let template_vars : Dict :=
        [("lat", .num lat), ("lon", .num lon), ("size", .str size_style),
         ("max_zoom", .num max_zoom), ("zoom_level", .num zoom_start)]
      let map_size :=
        if fullscreen then MapSize.fullscreen else MapSize.dims width height
      let template_vars :=
        if fullscreen then alistPop template_vars "size" else template_vars
      let tilesNorm := normalizeTiles tiles
      if tilesNorm == "cloudmade" && !strTruthy API_key then
        Except.error (.valueError
          "You must pass an API key if using Cloudmade tiles.")
      else
        match alistGet? builtinTileTable tilesNorm with
        | some (.builtin templ att) =>
            let template_vars := alistSet template_vars "Tiles"
              (.str (renderTemplate templ [("API_key", apiKeyValue API_key)]))
            let template_vars := alistSet template_vars "attr"
              (.str (renderTemplate att []))
            Except.ok { map_type := "base", mark_cnt := [], location := loc,
                        map_size := map_size, size_style := size_style,
                        template_vars := template_vars, tiles := tilesNorm,
                        default_tiles := defaultTilesList,
                        tile_types := builtinTileTable, HTML := none }
        | some (.custom _ _) =>
            -- unreachable at construction: the table just built holds only
            -- built-in entries; a custom entry would lack the templ key
            Except.error (.keyError "templ")
        | none =>
            let template_vars := alistSet template_vars "Tiles" (.str tiles)
            match attr with
            | none =>
                Except.error (.typeError
                  "coercing to Unicode: need string or buffer, NoneType found")
            | some a =>
                let template_vars := alistSet template_vars "attr" (.str a)
                Except.ok { map_type := "base", mark_cnt := [],
                            location := loc, map_size := map_size,
                            size_style := size_style,
                            template_vars := template_vars,
                            tiles := tilesNorm,
                            default_tiles := defaultTilesList,
                            tile_types := alistSet builtinTileTable "Custom"
                              (.custom tiles attr),
                            HTML := none }

/-- The setdefault-then-append idiom on the markers slot: create the
slot holding an empty list if absent, then append the fragment. -/
def appendMarker (tv : Dict) (marker : MarkerDirective) : Dict :=
  match alistGet? tv "markers" with
  | some (Value.markers ms) => alistSet tv "markers" (.markers (ms ++ [marker]))
  | some _ => tv   -- unreachable: the markers slot only ever holds a list
  | none => alistSet tv "markers" (.markers [marker])

/-- Method simple_marker: increment the simple counter, invoke the
factory with the new count, append the fragment to the marker list. -/
def Map.simple_marker (m : Map) (location : Option (List Int))
    (popup_txt : String) (popup : Bool) : Map :=
  let cnt := alistGetD m.mark_cnt "simple" 0 + 1
  let marker := mk.simple_marker location popup_txt popup cnt
  { m with mark_cnt := alistSet m.mark_cnt "simple" cnt,
           template_vars := appendMarker m.template_vars marker }

/-- Method circle_marker: increment the circle counter, invoke the
factory with the new count, append the fragment to the marker list. -/
def Map.circle_marker (m : Map) (location : Option (List Int))
    (radius : Int) (popup_txt : String) (popup : Bool)
    (line_color : String) (fill_color : String) (fill_opacity : Int) : Map :=
  let cnt := alistGetD m.mark_cnt "circle" 0 + 1
  let marker := mk.circle_marker location radius line_color fill_color
    fill_opacity popup_txt popup cnt
  { m with mark_cnt := alistSet m.mark_cnt "circle" cnt,
           template_vars := appendMarker m.template_vars marker }

/-- Method lat_lng_popover: render the fixed popover sub-template with no
parameters and store it under its dedicated slot. -/
def Map.lat_lng_popover (m : Map) : Map :=
  let frag := renderTemplate "lat_lng_popover.txt" []
  { m with template_vars := alistSet m.template_vars "lat_lng_pop" (.str frag) }

/-- The default popup expression of click_for_marker, displaying the
clicked latitude and longitude. -/
def latlngDefault : String :=
  "\"Latitude: \" + lat + \"<br>Longitude: \" + lng "

/-- Method click_for_marker: the popup parameter is the quoted literal
text when the argument is truthy, else the default lat/lng expression;
the rendered fragment is stored under the click_pop slot. -/
def Map.click_for_marker (m : Map) (popup_txt : Option String) : Map :=
  let popup :=
    if strTruthy popup_txt then
      String.join ["\"", popup_txt.getD "", "\""]
    else latlngDefault
  let click_str := renderTemplate "click_for_marker.txt" [("popup", .str popup)]
  { m with template_vars := alistSet m.template_vars "click_pop" (.str click_str) }

/-- Method geo_json: set the map-type tag to geojson, render the style
sub-template from the five styling parameters, store the data reference
and the style fragment under their dedicated slots. -/
def Map.geo_json (m : Map) (data : String) (line_color : String)
    (line_weight : Int) (line_opacity : Int) (fill_color : String)
    (fill_opacity : Int) : Map :=
  let style := renderTemplate "geojson_style.txt"
    [("line_color", .str line_color), ("line_weight", .num line_weight),
     ("line_opacity", .num line_opacity), ("fill_color", .str fill_color),
     ("fill_opacity", .num fill_opacity)]
  { m with map_type := "geojson",
           template_vars := alistSet
             (alistSet m.template_vars "geo_json" (.str data))
             "geo_style" (.str style) }

/-- The fixed two-entry outer-template table of the build step. -/
def map_types : List (String × String) :=
  [("base", "fol_template.html"), ("geojson", "geojson_template.html")]

/-- Method of the build step: look the map-type tag up in the fixed
table (a miss is a Python KeyError), render the selected outer template
against the full variable mapping, store the page text in HTML. -/
def Map.build_map (m : Map) : Except MapError Map :=
  match alistGet? map_types m.map_type with
  | none => Except.error (.keyError m.map_type)
  | some type_temp =>
      Except.ok { m with HTML := some (renderTemplate type_temp m.template_vars) }

/-- One post-construction mutator call, for quantifying over sequences
of public mutators. -/
inductive MapOp where
  | simple (loc : Option (List Int)) (txt : String) (pop : Bool)
  | circle (loc : Option (List Int)) (radius : Int) (txt : String)
      (pop : Bool) (lc : String) (fc : String) (fo : Int)
  | latLngPopover
  | clickForMarker (txt : Option String)
  | geoJson (data : String) (lc : String) (lw : Int) (lo : Int)
      (fc : String) (fo : Int)
deriving DecidableEq, Repr

/-- Dispatch of one mutator call on a map state. -/
def applyOp (m : Map) : MapOp → Map
  | .simple loc txt pop => m.simple_marker loc txt pop
  | .circle loc radius txt pop lc fc fo =>
      m.circle_marker loc radius txt pop lc fc fo
  | .latLngPopover => m.lat_lng_popover
  | .clickForMarker txt => m.click_for_marker txt
  | .geoJson data lc lw lo fc fo => m.geo_json data lc lw lo fc fo

/-- A sequence of mutator calls, applied left to right. -/
def applyOps (m : Map) (ops : List MapOp) : Map :=
  ops.foldl applyOp m

/-- The current content of the markers slot as a list (empty when the
slot is still absent). -/
def Map.markersList (m : Map) : List MarkerDirective :=
  match alistGet? m.template_vars "markers" with
  | some (Value.markers ms) => ms
  | _ => []

/-- The current value of the simple-marker counter (0 before any call,
matching the .get default in the source). -/
def Map.simpleCnt (m : Map) : Nat :=
  alistGetD m.mark_cnt "simple" 0

/-- Arguments of one simple_marker call: location, popup text, popup
flag. -/
abbrev SimpleCall : Type := Option (List Int) × String × Bool

/-- A sequence of simple_marker calls applied left to right. -/
def applySimples (m : Map) (calls : List SimpleCall) : Map :=
  calls.foldl (fun acc c => acc.simple_marker c.1 c.2.1 c.2.2) m

/-- The marker directives a sequence of simple_marker calls produces when
the simple counter starts at c: the i-th call receives index c + i + 1. -/
def expectedSimple (c : Nat) : List SimpleCall → List MarkerDirective
  | [] => []
  | call :: rest =>
      mk.simple_marker call.1 call.2.1 call.2.2 (c + 1) ::
        expectedSimple (c + 1) rest

/-- The generated name of the simple directive with sequence index i. -/
def simpleName (i : Nat) : String :=
  "simple_" ++ natRepr i

/-- Well-formedness of the markers slot: absent, or holding a marker
list.  This holds after construction and is preserved by every mutator. -/
def MarkersOk (m : Map) : Prop :=
  alistGet? m.template_vars "markers" = none ∨
  ∃ ms, alistGet? m.template_vars "markers" = some (Value.markers ms)

/-- Discriminator: does a constructor or build result fail with the
error class the specification names ConfigurationError (the source's
ValueError)? -/
def isConfigFailure : Except MapError Map → Bool
  | Except.error (.valueError _) => true
  | _ => false

/-- A throwaway default map state, only used to extract the payload of a
construction known to succeed. -/
def fallbackMap : Map :=
  { map_type := "base", mark_cnt := [], location := [], map_size := .dims 0 0,
    size_style := "", template_vars := [], tiles := "", default_tiles := [],
    tile_types := [], HTML := none }

/-- A sample successful construction with the default arguments of the
source. -/
def sampleMap : Map :=
  (Map.init (some [45, -122]) 960 500 false "OpenStreetMap" none 18 10
    none).toOption.getD fallbackMap

/-- A sample pair of simple_marker calls. -/
def sampleCalls : List SimpleCall :=
  [(some [1, 2], "Portland, OR", true), (some [3, 4], "Seattle, WA", false)]

/-- The sample map after the two sample calls and the build step. -/
def sampleBuilt : Map :=
  ((applySimples sampleMap sampleCalls).build_map).toOption.getD fallbackMap

/-- The sample map built immediately, with no mutator call. -/
def sampleBuiltPlain : Map :=
  (sampleMap.build_map).toOption.getD fallbackMap

/-- A sample fullscreen construction. -/
def sampleMapFS : Map :=
  (Map.init (some [45, -122]) 960 500 true "OpenStreetMap" none 18 10
    none).toOption.getD fallbackMap

/-- A sample construction through the custom tile-provider path. -/
def sampleCustom : Map :=
  (Map.init (some [45, -122]) 960 500 false "http://x/tiles" none 18 10
    (some "Attribution")).toOption.getD fallbackMap

/-- The sample map after a GeoJSON overlay call. -/
def sampleGeo : Map :=
  sampleMap.geo_json "us-states.json" "black" 1 1 "blue" 1

/-- A sample sequence of one call to each mutator. -/
def sampleOps : List MapOp :=
  [.simple (some [1, 2]) "hi" true, .latLngPopover,
   .clickForMarker (some "x"),
   .circle (some [3, 4]) 500 "c" true "black" "black" 1,
   .geoJson "us.json" "black" 1 1 "blue" 1]

/-- A map state whose map-type tag is outside the dispatch table (not
reachable through the public API; used to exercise the build step's
defensive behaviour). -/
def badTagMap : Map :=
  { sampleMap with map_type := "notatype" }

/-- Python truthiness classification of a location argument that is
either absent-or-empty (falsy) or holds at least two coordinates; a
one-element list is excluded (it is truthy yet malformed). -/
def locWellformed : Option (List Int) → Prop
  | none => True
  | some l => l = [] ∨ 2 ≤ l.length

section AlistLemmas

variable {α : Type}

theorem alistGet?_set_self (d : List (String × α)) (k : String) (v : α) :
    alistGet? (alistSet d k v) k = some v := by
  induction d with
  | nil => simp [alistSet, alistGet?]
  | cons kv rest ih =>
      obtain ⟨k2, v2⟩ := kv
      by_cases h : k2 = k
      · simp [alistSet, alistGet?, h]
      · simp [alistSet, alistGet?, h, ih]

theorem alistGet?_set_ne (d : List (String × α)) (k k' : String) (v : α)
    (h : k' ≠ k) :
    alistGet? (alistSet d k v) k' = alistGet? d k' := by
  induction d with
  | nil => simp [alistSet, alistGet?, Ne.symm h]
  | cons kv rest ih =>
      obtain ⟨k2, v2⟩ := kv
      by_cases h2 : k2 = k
      · subst h2
        simp [alistSet, alistGet?, Ne.symm h]
      · simp [alistSet, alistGet?, h2, ih]

theorem alistGet?_pop_self (d : List (String × α)) (k : String) :
    alistGet? (alistPop d k) k = none := by
  induction d with
  | nil => simp [alistPop, alistGet?]
  | cons kv rest ih =>
      obtain ⟨k2, v2⟩ := kv
      by_cases h : k2 = k
      · simpa [alistPop, alistGet?, h] using ih
      · simpa [alistPop, alistGet?, h] using ih

theorem alistGet?_pop_ne (d : List (String × α)) (k k' : String)
    (h : k' ≠ k) :
    alistGet? (alistPop d k) k' = alistGet? d k' := by
  induction d with
  | nil => simp [alistPop, alistGet?]
  | cons kv rest ih =>
      obtain ⟨k2, v2⟩ := kv
      by_cases h2 : k2 = k
      · subst h2
        simpa [alistPop, alistGet?, Ne.symm h] using ih
      · have hstep : alistPop ((k2, v2) :: rest) k = (k2, v2) :: alistPop rest k := by
          simp [alistPop, h2]
        rw [hstep]
        by_cases h3 : k2 = k'
        · simp [alistGet?, h3]
        · simp [alistGet?, h3, ih]

end AlistLemmas

section DigitLemmas

theorem natDigitsList_ne_nil (n : Nat) : natDigitsList n ≠ [] := by
  unfold natDigitsList
  split <;> simp

theorem digitChar_inj_fin :
    ∀ a b : Fin 10, Nat.digitChar a.val = Nat.digitChar b.val → a = b := by
  decide

theorem digitChar_inj {a b : Nat} (ha : a < 10) (hb : b < 10)
    (h : Nat.digitChar a = Nat.digitChar b) : a = b := by
  have := digitChar_inj_fin ⟨a, ha⟩ ⟨b, hb⟩ h
  exact congrArg Fin.val this

theorem natDigitsList_small {n : Nat} (h : n < 10) :
    natDigitsList n = [Nat.digitChar n] := by
  rw [natDigitsList]
  simp [h]

theorem natDigitsList_large {n : Nat} (h : ¬n < 10) :
    natDigitsList n = natDigitsList (n / 10) ++ [Nat.digitChar (n % 10)] := by
  rw [natDigitsList]
  simp [h]

theorem natDigitsList_inj : ∀ a b : Nat,
    natDigitsList a = natDigitsList b → a = b := by
  intro a
  induction a using Nat.strong_induction_on with
  | _ a ih =>
    intro b h
    by_cases ha : a < 10 <;> by_cases hb : b < 10
    · rw [natDigitsList_small ha, natDigitsList_small hb] at h
      exact digitChar_inj ha hb (List.head_eq_of_cons_eq h)
    · rw [natDigitsList_small ha, natDigitsList_large hb] at h
      have hlen := congrArg List.length h
      simp at hlen
      exact absurd hlen (natDigitsList_ne_nil (b / 10))
    · rw [natDigitsList_large ha, natDigitsList_small hb] at h
      have hlen := congrArg List.length h
      simp at hlen
      exact absurd hlen (natDigitsList_ne_nil (a / 10))
    · rw [natDigitsList_large ha, natDigitsList_large hb] at h
      obtain ⟨h1, h2⟩ := List.append_inj' h (by simp)
      have hdiv : a / 10 = b / 10 :=
        ih (a / 10) (Nat.div_lt_self (by omega) (by omega)) (b / 10) h1
      have hmod : a % 10 = b % 10 :=
        digitChar_inj (Nat.mod_lt a (by omega)) (Nat.mod_lt b (by omega))
          (List.head_eq_of_cons_eq h2)
      omega

theorem natRepr_inj {a b : Nat} (h : natRepr a = natRepr b) : a = b := by
  have hd := congrArg String.data h
  exact natDigitsList_inj a b hd

theorem string_append_left_cancel {a x y : String} (h : a ++ x = a ++ y) :
    x = y := by
  have hd := congrArg String.data h
  simp only [String.data_append] at hd
  have h2 := List.append_cancel_left hd
  cases x
  cases y
  exact congrArg String.mk h2

theorem simpleName_inj {i j : Nat} (h : simpleName i = simpleName j) :
    i = j := by
  exact natRepr_inj (string_append_left_cancel h)

end DigitLemmas

section InitLemmas

theorem init_ok_inv {loc : Option (List Int)} {w h : Int} {fs : Bool}
    {t : String} {key : Option String} {mz zs : Int} {a : Option String}
    {m : Map}
    (hinit : Map.init loc w h fs t key mz zs a = Except.ok m) :
    m.map_type = "base" ∧ m.mark_cnt = [] ∧
    alistGet? m.template_vars "markers" = none := by
  simp only [Map.init] at hinit
  repeat' split at hinit
  all_goals first
    | exact (Except.noConfusion hinit)
    | (injection hinit with hinit; subst hinit;
       exact ⟨rfl, rfl, by simp [alistGet?, alistSet, alistPop]⟩)

end InitLemmas

section MarkerLemmas

theorem mk_simple_marker_name (l : Option (List Int)) (t : String) (p : Bool)
    (n : Nat) : (mk.simple_marker l t p n).name = simpleName n := rfl

theorem appendMarker_get_absent (tv : Dict) (d : MarkerDirective)
    (h : alistGet? tv "markers" = none) :
    alistGet? (appendMarker tv d) "markers" = some (.markers [d]) := by
  unfold appendMarker
  simp [h, alistGet?_set_self]

theorem appendMarker_get_present (tv : Dict) (d : MarkerDirective)
    (ms : List MarkerDirective)
    (h : alistGet? tv "markers" = some (.markers ms)) :
    alistGet? (appendMarker tv d) "markers"
      = some (.markers (ms ++ [d])) := by
  unfold appendMarker
  simp [h, alistGet?_set_self]

theorem appendMarker_get_ne (tv : Dict) (d : MarkerDirective) (k : String)
    (h : k ≠ "markers") :
    alistGet? (appendMarker tv d) k = alistGet? tv k := by
  unfold appendMarker
  split
  · exact alistGet?_set_ne _ _ _ _ h
  · rfl
  · exact alistGet?_set_ne _ _ _ _ h

theorem simple_marker_template_vars (m : Map) (l : Option (List Int))
    (t : String) (p : Bool) :
    (m.simple_marker l t p).template_vars
      = appendMarker m.template_vars
          (mk.simple_marker l t p (m.simpleCnt + 1)) := rfl

theorem simple_marker_map_type (m : Map) (l : Option (List Int))
    (t : String) (p : Bool) :
    (m.simple_marker l t p).map_type = m.map_type := rfl

theorem simpleCnt_simple_marker (m : Map) (l : Option (List Int))
    (t : String) (p : Bool) :
    (m.simple_marker l t p).simpleCnt = m.simpleCnt + 1 := by
  simp [Map.simpleCnt, Map.simple_marker, alistGetD, alistGet?_set_self]

theorem markersList_simple_marker (m : Map) (l : Option (List Int))
    (t : String) (p : Bool) (hok : MarkersOk m) :
    (m.simple_marker l t p).markersList
      = m.markersList ++ [mk.simple_marker l t p (m.simpleCnt + 1)] := by
  rcases hok with hnone | ⟨ms, hms⟩
  · unfold Map.markersList
    rw [simple_marker_template_vars, appendMarker_get_absent _ _ hnone, hnone]
    rfl
  · unfold Map.markersList
    rw [simple_marker_template_vars, appendMarker_get_present _ _ _ hms, hms]

theorem markersOk_simple_marker (m : Map) (l : Option (List Int))
    (t : String) (p : Bool) (hok : MarkersOk m) :
    MarkersOk (m.simple_marker l t p) := by
  right
  rcases hok with hnone | ⟨ms, hms⟩
  · exact ⟨_, by rw [simple_marker_template_vars,
      appendMarker_get_absent _ _ hnone]⟩
  · exact ⟨_, by rw [simple_marker_template_vars,
      appendMarker_get_present _ _ _ hms]⟩

theorem applySimples_spec (calls : List SimpleCall) :
    ∀ m : Map, MarkersOk m →
      (applySimples m calls).markersList
          = m.markersList ++ expectedSimple m.simpleCnt calls ∧
      (applySimples m calls).simpleCnt = m.simpleCnt + calls.length ∧
      (applySimples m calls).map_type = m.map_type ∧
      MarkersOk (applySimples m calls) := by
  induction calls with
  | nil =>
      intro m hok
      exact ⟨by simp [applySimples, expectedSimple], rfl, rfl, hok⟩
  | cons c rest ih =>
      intro m hok
      have hstep : applySimples m (c :: rest)
          = applySimples (m.simple_marker c.1 c.2.1 c.2.2) rest := rfl
      obtain ⟨e1, e2, e3, e4⟩ := ih (m.simple_marker c.1 c.2.1 c.2.2)
        (markersOk_simple_marker m c.1 c.2.1 c.2.2 hok)
      rw [hstep]
      refine ⟨?_, ?_, ?_, e4⟩
      · rw [e1, markersList_simple_marker m c.1 c.2.1 c.2.2 hok,
            simpleCnt_simple_marker]
        simp [expectedSimple, List.append_assoc]
      · rw [e2, simpleCnt_simple_marker]
        simp
        omega
      · rw [e3, simple_marker_map_type]

theorem expectedSimple_length (calls : List SimpleCall) :
    ∀ c : Nat, (expectedSimple c calls).length = calls.length := by
  induction calls with
  | nil => intro c; rfl
  | cons cc rest ih => intro c; simp [expectedSimple, ih]

theorem mem_expectedSimple_name (calls : List SimpleCall) :
    ∀ (c : Nat) (d : MarkerDirective), d ∈ expectedSimple c calls →
      ∃ i, c < i ∧ d.name = simpleName i := by
  induction calls with
  | nil => intro c d hd; simp [expectedSimple] at hd
  | cons cc rest ih =>
      intro c d hd
      simp only [expectedSimple, List.mem_cons] at hd
      rcases hd with hd | hd
      · exact ⟨c + 1, by omega, by rw [hd, mk_simple_marker_name]⟩
      · obtain ⟨i, hi, hn⟩ := ih (c + 1) d hd
        exact ⟨i, by omega, hn⟩

theorem expectedSimple_names_nodup (calls : List SimpleCall) :
    ∀ c : Nat, ((expectedSimple c calls).map MarkerDirective.name).Nodup := by
  induction calls with
  | nil => intro c; simp [expectedSimple]
  | cons cc rest ih =>
      intro c
      simp only [expectedSimple, List.map_cons, List.nodup_cons]
      refine ⟨?_, ih (c + 1)⟩
      intro hmem
      obtain ⟨d, hd, heq⟩ := List.mem_map.mp hmem
      obtain ⟨i, hi, hn⟩ := mem_expectedSimple_name rest (c + 1) d hd
      rw [hn, mk_simple_marker_name] at heq
      have := simpleName_inj heq
      omega

end MarkerLemmas

section BuildLemmas

theorem build_map_base (m : Map) (h : m.map_type = "base") :
    m.build_map = Except.ok
      { m with HTML := some (renderTemplate "fol_template.html"
          m.template_vars) } := by
  unfold Map.build_map
  rw [h]
  rfl

theorem build_map_geojson (m : Map) (h : m.map_type = "geojson") :
    m.build_map = Except.ok
      { m with HTML := some (renderTemplate "geojson_template.html"
          m.template_vars) } := by
  unfold Map.build_map
  rw [h]
  rfl

theorem markersList_set_HTML (m : Map) (v : Option String) :
    ({ m with HTML := v } : Map).markersList = m.markersList := rfl

theorem simpleCnt_set_HTML (m : Map) (v : Option String) :
    ({ m with HTML := v } : Map).simpleCnt = m.simpleCnt := rfl

end BuildLemmas

section GeoFrameLemmas

theorem geo_json_map_type (m : Map) (d lc : String) (lw lo : Int)
    (fc : String) (fo : Int) :
    (m.geo_json d lc lw lo fc fo).map_type = "geojson" := rfl

theorem geo_json_template_vars (m : Map) (d lc : String) (lw lo : Int)
    (fc : String) (fo : Int) :
    (m.geo_json d lc lw lo fc fo).template_vars
      = alistSet (alistSet m.template_vars "geo_json" (.str d)) "geo_style"
          (.str (renderTemplate "geojson_style.txt"
            [("line_color", .str lc), ("line_weight", .num lw),
             ("line_opacity", .num lo), ("fill_color", .str fc),
             ("fill_opacity", .num fo)])) := rfl

theorem circle_marker_template_vars (m : Map) (l : Option (List Int))
    (r : Int) (t : String) (p : Bool) (lc fc : String) (fo : Int) :
    (m.circle_marker l r t p lc fc fo).template_vars
      = appendMarker m.template_vars
          (mk.circle_marker l r lc fc fo t p
            (alistGetD m.mark_cnt "circle" 0 + 1)) := rfl

theorem applyOp_keeps_geojson (m : Map) (op : MapOp)
    (h : m.map_type = "geojson") : (applyOp m op).map_type = "geojson" := by
  cases op
  · exact h
  · exact h
  · exact h
  · exact h
  · rfl

theorem applyOps_keeps_geojson (ops : List MapOp) :
    ∀ m : Map, m.map_type = "geojson" →
      (applyOps m ops).map_type = "geojson" := by
  induction ops with
  | nil => intro m h; exact h
  | cons op rest ih => intro m h; exact ih _ (applyOp_keeps_geojson m op h)

theorem applyOp_frame (m : Map) (op : MapOp) (k : String)
    (h1 : k ≠ "markers") (h2 : k ≠ "lat_lng_pop") (h3 : k ≠ "click_pop")
    (h4 : k ≠ "geo_json") (h5 : k ≠ "geo_style") :
    alistGet? (applyOp m op).template_vars k
      = alistGet? m.template_vars k := by
  cases op
  · exact appendMarker_get_ne _ _ _ h1
  · exact appendMarker_get_ne _ _ _ h1
  · exact alistGet?_set_ne _ _ _ _ h2
  · exact alistGet?_set_ne _ _ _ _ h3
  · show alistGet? (alistSet (alistSet m.template_vars "geo_json" _)
      "geo_style" _) k = _
    rw [alistGet?_set_ne _ _ _ _ h5, alistGet?_set_ne _ _ _ _ h4]

theorem applyOps_frame (ops : List MapOp) :
    ∀ (m : Map) (k : String), k ≠ "markers" → k ≠ "lat_lng_pop" →
      k ≠ "click_pop" → k ≠ "geo_json" → k ≠ "geo_style" →
      alistGet? (applyOps m ops).template_vars k
        = alistGet? m.template_vars k := by
  induction ops with
  | nil => intro m k _ _ _ _ _; rfl
  | cons op rest ih =>
      intro m k h1 h2 h3 h4 h5
      have hstep : applyOps m (op :: rest) = applyOps (applyOp m op) rest := rfl
      rw [hstep, ih (applyOp m op) k h1 h2 h3 h4 h5,
          applyOp_frame m op k h1 h2 h3 h4 h5]

end GeoFrameLemmas

/-- C3: the map-type tag is base at construction, the GeoJSON mutator
sets it to geojson, no mutator sequence ever brings it back to base once
it is geojson, and a second GeoJSON call leaves the tag geojson while
overwriting the style and data slots with the freshly rendered values. -/
theorem map_type_one_way :
    (∀ (loc : Option (List Int)) (w h : Int) (fs : Bool) (t : String)
       (key : Option String) (mz zs : Int) (a : Option String) (m : Map),
       Map.init loc w h fs t key mz zs a = Except.ok m →
         m.map_type = "base") ∧
    (∀ (m : Map) (d lc : String) (lw lo : Int) (fc : String) (fo : Int),
       (m.geo_json d lc lw lo fc fo).map_type = "geojson") ∧
    (∀ (m : Map) (ops : List MapOp), m.map_type = "geojson" →
       (applyOps m ops).map_type = "geojson") ∧
    (∀ (m : Map) (d1 lc1 : String) (lw1 lo1 : Int) (fc1 : String) (fo1 : Int)
       (d2 lc2 : String) (lw2 lo2 : Int) (fc2 : String) (fo2 : Int),
       ((m.geo_json d1 lc1 lw1 lo1 fc1 fo1).geo_json d2 lc2 lw2 lo2 fc2
           fo2).map_type = "geojson" ∧
       alistGet? ((m.geo_json d1 lc1 lw1 lo1 fc1 fo1).geo_json d2 lc2 lw2 lo2
           fc2 fo2).template_vars "geo_style"
         = some (.str (renderTemplate "geojson_style.txt"
             [("line_color", .str lc2), ("line_weight", .num lw2),
              ("line_opacity", .num lo2), ("fill_color", .str fc2),
              ("fill_opacity", .num fo2)])) ∧
       alistGet? ((m.geo_json d1 lc1 lw1 lo1 fc1 fo1).geo_json d2 lc2 lw2 lo2
           fc2 fo2).template_vars "geo_json" = some (.str d2)) := by
  refine ⟨?_, ?_, ?_, ?_⟩
  · intro loc w h fs t key mz zs a m hinit
    exact (init_ok_inv hinit).1
  · intro m d lc lw lo fc fo
    rfl
  · intro m ops h
    exact applyOps_keeps_geojson ops m h
  · intro m d1 lc1 lw1 lo1 fc1 fo1 d2 lc2 lw2 lo2 fc2 fo2
    refine ⟨rfl, ?_, ?_⟩
    · rw [geo_json_template_vars, alistGet?_set_self]
    · rw [geo_json_template_vars, alistGet?_set_ne _ _ _ _ (by decide),
          alistGet?_set_self]

/-- Witness for C3 at a concrete construction and concrete overlay
calls. -/
theorem map_type_one_way_witness :
    sampleMap.map_type = "base" ∧
    sampleGeo.map_type = "geojson" ∧
    (applyOps sampleGeo sampleOps).map_type = "geojson" ∧
    (sampleGeo.geo_json "fr.json" "red" 2 1 "green" 1).map_type
      = "geojson" ∧
    alistGet? (sampleGeo.geo_json "fr.json" "red" 2 1 "green"
        1).template_vars "geo_style"
      = some (.str (renderTemplate "geojson_style.txt"
          [("line_color", .str "red"), ("line_weight", .num 2),
           ("line_opacity", .num 1), ("fill_color", .str "green"),
           ("fill_opacity", .num 1)])) ∧
    alistGet? (sampleGeo.geo_json "fr.json" "red" 2 1 "green"
        1).template_vars "geo_json" = some (.str "fr.json") := by
  have h4 := map_type_one_way.2.2.2 sampleMap "us-states.json" "black" 1 1
    "blue" 1 "fr.json" "red" 2 1 "green" 1
  exact ⟨map_type_one_way.1 (some [45, -122]) 960 500 false "OpenStreetMap"
      none 18 10 none sampleMap (by rfl),
    map_type_one_way.2.1 sampleMap "us-states.json" "black" 1 1 "blue" 1,
    map_type_one_way.2.2.1 sampleGeo sampleOps (by rfl),
    h4.1, h4.2.1, h4.2.2⟩

/-- C1: for every successfully constructed map context and every sequence
of N ≥ 1 simple_marker calls followed by the build step, the accumulated
marker list holds exactly the N fragments of those calls in call order,
the i-th carrying the generated name for per-kind counter value i, the
names are pairwise distinct, and the simple counter ends at exactly N
(incremented by one per call, never reset). -/
theorem simple_marker_accumulation
    (loc : Option (List Int)) (w hgt : Int) (fs : Bool) (t : String)
    (key : Option String) (mz zs : Int) (a : Option String) (m m' : Map)
    (calls : List SimpleCall)
    (hinit : Map.init loc w hgt fs t key mz zs a = Except.ok m)
    (hn : 1 ≤ calls.length)
    (hb : (applySimples m calls).build_map = Except.ok m') :
    m'.markersList = expectedSimple 0 calls ∧
    m'.markersList.length = calls.length ∧
    (m'.markersList.map MarkerDirective.name).Nodup ∧
    m'.simpleCnt = calls.length := by
  obtain ⟨htype, hcnt, hmk⟩ := init_ok_inv hinit
  obtain ⟨e1, e2, e3, e4⟩ := applySimples_spec calls m (Or.inl hmk)
  have hml : m.markersList = [] := by
    unfold Map.markersList
    rw [hmk]
  have hsc : m.simpleCnt = 0 := by
    unfold Map.simpleCnt alistGetD
    rw [hcnt]
    rfl
  have hbt : (applySimples m calls).map_type = "base" := by rw [e3, htype]
  rw [build_map_base _ hbt] at hb
  injection hb with hb
  subst hb
  refine ⟨?_, ?_, ?_, ?_⟩
  · rw [markersList_set_HTML, e1, hml, hsc]
    simp
  · rw [markersList_set_HTML, e1, hml, hsc]
    simp [expectedSimple_length]
  · rw [markersList_set_HTML, e1, hml, hsc]
    simpa using expectedSimple_names_nodup calls 0
  · rw [simpleCnt_set_HTML, e2, hsc]
    simp

/-- Witness for C1 at a concrete construction and two concrete calls. -/
theorem simple_marker_accumulation_witness :
    sampleBuilt.markersList = expectedSimple 0 sampleCalls ∧
    sampleBuilt.markersList.length = sampleCalls.length ∧
    (sampleBuilt.markersList.map MarkerDirective.name).Nodup ∧
    sampleBuilt.simpleCnt = sampleCalls.length :=
  simple_marker_accumulation (some [45, -122]) 960 500 false "OpenStreetMap"
    none 18 10 none sampleMap sampleBuilt sampleCalls (by rfl) (by decide)
    (by rfl)

/-- C2: the build step is idempotent and read-only with respect to the
variable mapping: a successful build leaves template_vars exactly as it
found it, and running the build step again returns the identical state
(hence byte-identical page output). -/
theorem build_map_idempotent (m m₁ : Map)
    (h : m.build_map = Except.ok m₁) :
    m₁.template_vars = m.template_vars ∧
    m₁.build_map = Except.ok m₁ := by
  unfold Map.build_map at h ⊢
  split at h
  · exact Except.noConfusion h
  · injection h with h
    subst h
    rename_i tt heq
    refine ⟨rfl, ?_⟩
    have hmt : ({ m with HTML := some (renderTemplate tt m.template_vars) }
        : Map).map_type = m.map_type := rfl
    rw [hmt, heq]

/-- Witness for C2 at a concrete constructed map. -/
theorem build_map_idempotent_witness :
    sampleBuiltPlain.template_vars = sampleMap.template_vars ∧
    sampleBuiltPlain.build_map = Except.ok sampleBuiltPlain :=
  build_map_idempotent sampleMap sampleBuiltPlain (by rfl)

/-- Counterexample to C4 as stated: a malformed (single-element) center
coordinate is truthy, passes the location check, and construction then
fails with an IndexError from indexing the second coordinate — not with
the ValueError the specification calls ConfigurationError. -/
theorem init_malformed_location_not_config :
    Map.init (some [45]) 960 500 false "OpenStreetMap" none 18 10 none
      = Except.error (MapError.indexError "list index out of range") ∧
    isConfigFailure (Map.init (some [45]) 960 500 false "OpenStreetMap" none
      18 10 none) = false := by
  constructor <;> rfl

/-- C4 as amended: when the center-coordinate argument is absent (None or
an empty list — the falsy values of the source's truthiness check),
construction always fails with the ConfigurationError ValueError and
returns no state; a malformed non-empty location instead fails later with
a different error class. -/
theorem init_absent_location_config_error
    (w h : Int) (fs : Bool) (t : String) (key : Option String)
    (mz zs : Int) (a : Option String) :
    Map.init none w h fs t key mz zs a
      = Except.error (.valueError
          "You must pass a Lat/Lon location to initialize your map") ∧
    Map.init (some []) w h fs t key mz zs a
      = Except.error (.valueError
          "You must pass a Lat/Lon location to initialize your map") := by
  constructor <;> rfl

/-- Counterexample to C5 as stated: on a tag outside the dispatch table
the build step fails with a KeyError from the raw dictionary lookup, not
with the ValueError the specification calls ConfigurationError. -/
theorem build_map_bad_tag_not_config :
    badTagMap.build_map = Except.error (MapError.keyError "notatype") ∧
    isConfigFailure badTagMap.build_map = false := by
  constructor <;> rfl

/-- C5 as amended: for a map-type tag equal to neither base nor geojson
the build step fails — with a KeyError naming the tag, not a
ConfigurationError — and for the two table tags it renders the
corresponding outer page template. -/
theorem build_map_dispatch (m : Map) :
    (m.map_type ≠ "base" → m.map_type ≠ "geojson" →
        m.build_map = Except.error (.keyError m.map_type)) ∧
    (m.map_type = "base" →
        m.build_map = Except.ok { m with HTML := some (renderTemplate
          "fol_template.html" m.template_vars) }) ∧
    (m.map_type = "geojson" →
        m.build_map = Except.ok { m with HTML := some (renderTemplate
          "geojson_template.html" m.template_vars) }) := by
  refine ⟨?_, build_map_base m, build_map_geojson m⟩
  intro h1 h2
  unfold Map.build_map
  have hnone : alistGet? map_types m.map_type = none := by
    simp [map_types, alistGet?, Ne.symm h1, Ne.symm h2]
  rw [hnone]

/-- Witness for C5 as amended, at a concrete out-of-table tag and the two
concrete in-table tags. -/
theorem build_map_dispatch_witness :
    badTagMap.build_map = Except.error (.keyError badTagMap.map_type) ∧
    sampleMap.build_map = Except.ok { sampleMap with
      HTML := some (renderTemplate "fol_template.html"
        sampleMap.template_vars) } ∧
    sampleGeo.build_map = Except.ok { sampleGeo with
      HTML := some (renderTemplate "geojson_template.html"
        sampleGeo.template_vars) } :=
  ⟨(build_map_dispatch badTagMap).1 (by decide) (by decide),
   (build_map_dispatch sampleMap).2.1 (by rfl),
   (build_map_dispatch sampleGeo).2.2 (by rfl)⟩

/-- C6: whenever the tile selector normalizes to cloudmade and no API key
is supplied, construction fails with the ConfigurationError ValueError
(for any location that is absent, empty, or a well-formed coordinate
pair — a malformed one-element location would fail earlier with an
IndexError instead). -/
theorem cloudmade_requires_api_key
    (loc : Option (List Int)) (w h : Int) (fs : Bool) (t : String)
    (mz zs : Int) (a : Option String)
    (hloc : locWellformed loc)
    (ht : normalizeTiles t = "cloudmade") :
    isConfigFailure (Map.init loc w h fs t none mz zs a) = true := by
  cases loc with
  | none => rfl
  | some l =>
      rcases hloc with hl | hl
      · subst hl
        rfl
      · obtain ⟨x, y, r2, rfl⟩ : ∃ x y r2, l = x :: y :: r2 := by
          cases l with
          | nil => simp at hl
          | cons aa as =>
              cases as with
              | nil => simp at hl
              | cons bb bs => exact ⟨aa, bb, bs, rfl⟩
        unfold isConfigFailure
        simp only [Map.init]
        simp [locationTruthy, pyIndex, ht, strTruthy]

/-- Witness for C6 with a concrete selector that normalizes to
cloudmade. -/
theorem cloudmade_requires_api_key_witness :
    isConfigFailure (Map.init (some [45, -122]) 960 500 false " Cloud Made "
      none 18 10 none) = true :=
  cloudmade_requires_api_key (some [45, -122]) 960 500 false " Cloud Made "
    18 10 none (Or.inr (by decide)) (by rfl)

/-- C7: constructing with the fullscreen flag leaves the size slot
entirely absent from the variable mapping, while constructing without it
stores the size slot formatted from the given width and height. -/
theorem fullscreen_suppresses_size
    (loc : Option (List Int)) (w h : Int) (t : String) (key : Option String)
    (mz zs : Int) (a : Option String) :
    (∀ m : Map, Map.init loc w h true t key mz zs a = Except.ok m →
       alistGet? m.template_vars "size" = none) ∧
    (∀ m : Map, Map.init loc w h false t key mz zs a = Except.ok m →
       alistGet? m.template_vars "size"
         = some (.str ("style=\"width: " ++ toString w ++ "px; height: "
             ++ toString h ++ "px\""))) := by
  constructor <;>
  · intro m hinit
    simp only [Map.init] at hinit
    repeat' split at hinit
    all_goals first
      | exact (Except.noConfusion hinit)
      | (exfalso; simp_all; done)
      | (injection hinit with hinit; subst hinit;
         simp [alistGet?, alistSet, alistPop])

/-- Witness for C7 at concrete fullscreen and sized constructions. -/
theorem fullscreen_suppresses_size_witness :
    alistGet? sampleMapFS.template_vars "size" = none ∧
    alistGet? sampleMap.template_vars "size"
      = some (.str "style=\"width: 960px; height: 500px\"") :=
  ⟨(fullscreen_suppresses_size (some [45, -122]) 960 500 "OpenStreetMap"
      none 18 10 none).1 sampleMapFS (by rfl),
   (fullscreen_suppresses_size (some [45, -122]) 960 500 "OpenStreetMap"
      none 18 10 none).2 sampleMap (by rfl)⟩

/-- C8: when the normalized selector misses the built-in provider table,
the original selector string itself is stored as the Tiles slot, the
caller-supplied attribution is stored, and a Custom provider entry is
registered; with no attribution supplied this path always fails (with the
TypeError of the attribution decode) rather than being tolerated. -/
theorem custom_tiles_registration
    (l : List Int) (w h : Int) (fs : Bool) (t : String)
    (key : Option String) (mz zs : Int)
    (hl : 2 ≤ l.length)
    (hmiss : alistGet? builtinTileTable (normalizeTiles t) = none) :
    Map.init (some l) w h fs t key mz zs none
      = Except.error (.typeError
          "coercing to Unicode: need string or buffer, NoneType found") ∧
    (∀ (att : String) (m : Map),
       Map.init (some l) w h fs t key mz zs (some att) = Except.ok m →
       alistGet? m.template_vars "Tiles" = some (.str t) ∧
       alistGet? m.template_vars "attr" = some (.str att) ∧
       alistGet? m.tile_types "Custom" = some (.custom t (some att))) := by
  have hnc : (normalizeTiles t == "cloudmade") = false := by
    by_cases hcm : normalizeTiles t = "cloudmade"
    · rw [hcm] at hmiss
      exact absurd hmiss (by decide)
    · simp [hcm]
  obtain ⟨x, y, r2, rfl⟩ : ∃ x y r2, l = x :: y :: r2 := by
    cases l with
    | nil => simp at hl
    | cons aa as =>
        cases as with
        | nil => simp at hl
        | cons bb bs => exact ⟨aa, bb, bs, rfl⟩
  constructor
  · simp only [Map.init]
    simp [locationTruthy, pyIndex, hnc, hmiss]
  · intro att m hinit
    simp only [Map.init] at hinit
    simp only [locationTruthy, List.isEmpty_cons, Bool.not_false,
      if_true] at hinit
    simp [pyIndex, hnc, hmiss] at hinit
    subst hinit
    refine ⟨?_, ?_, ?_⟩
    · rw [alistGet?_set_ne _ _ _ _ (by decide), alistGet?_set_self]
    · rw [alistGet?_set_self]
    · rw [alistGet?_set_self]

/-- Witness for C8 at a concrete custom tile URL, with and without an
attribution. -/
theorem custom_tiles_registration_witness :
    Map.init (some [45, -122]) 960 500 false "http://x/tiles" none 18 10 none
      = Except.error (.typeError
          "coercing to Unicode: need string or buffer, NoneType found") ∧
    (alistGet? sampleCustom.template_vars "Tiles"
        = some (.str "http://x/tiles") ∧
     alistGet? sampleCustom.template_vars "attr"
        = some (.str "Attribution") ∧
     alistGet? sampleCustom.tile_types "Custom"
        = some (.custom "http://x/tiles" (some "Attribution"))) := by
  have h := custom_tiles_registration [45, -122] 960 500 false
    "http://x/tiles" none 18 10 (by decide) (by decide)
  exact ⟨h.1, h.2 "Attribution" sampleCustom (by rfl)⟩

/-- C9: no mutator call revisits the construction-time slots of the
variable mapping: after any sequence of mutator calls on a constructed
map, the center latitude and longitude, the size slot, the zoom bounds,
and the tile body and attribution fragments are exactly as construction
left them. -/
theorem construction_slots_frame
    (loc : Option (List Int)) (w h : Int) (fs : Bool) (t : String)
    (key : Option String) (mz zs : Int) (a : Option String) (m : Map)
    (ops : List MapOp)
    (hinit : Map.init loc w h fs t key mz zs a = Except.ok m) :
    alistGet? (applyOps m ops).template_vars "lat"
        = alistGet? m.template_vars "lat" ∧
    alistGet? (applyOps m ops).template_vars "lon"
        = alistGet? m.template_vars "lon" ∧
    alistGet? (applyOps m ops).template_vars "size"
        = alistGet? m.template_vars "size" ∧
    alistGet? (applyOps m ops).template_vars "max_zoom"
        = alistGet? m.template_vars "max_zoom" ∧
    alistGet? (applyOps m ops).template_vars "zoom_level"
        = alistGet? m.template_vars "zoom_level" ∧
    alistGet? (applyOps m ops).template_vars "Tiles"
        = alistGet? m.template_vars "Tiles" ∧
    alistGet? (applyOps m ops).template_vars "attr"
        = alistGet? m.template_vars "attr" := by
  refine ⟨?_, ?_, ?_, ?_, ?_, ?_, ?_⟩ <;>
    exact applyOps_frame ops m _ (by decide) (by decide) (by decide)
      (by decide) (by decide)

/-- Witness for C9 at a concrete construction and one call to each
mutator. -/
theorem construction_slots_frame_witness :
    alistGet? (applyOps sampleMap sampleOps).template_vars "lat"
        = alistGet? sampleMap.template_vars "lat" ∧
    alistGet? (applyOps sampleMap sampleOps).template_vars "lon"
        = alistGet? sampleMap.template_vars "lon" ∧
    alistGet? (applyOps sampleMap sampleOps).template_vars "size"
        = alistGet? sampleMap.template_vars "size" ∧
    alistGet? (applyOps sampleMap sampleOps).template_vars "max_zoom"
        = alistGet? sampleMap.template_vars "max_zoom" ∧
    alistGet? (applyOps sampleMap sampleOps).template_vars "zoom_level"
        = alistGet? sampleMap.template_vars "zoom_level" ∧
    alistGet? (applyOps sampleMap sampleOps).template_vars "Tiles"
        = alistGet? sampleMap.template_vars "Tiles" ∧
    alistGet? (applyOps sampleMap sampleOps).template_vars "attr"
        = alistGet? sampleMap.template_vars "attr" :=
  construction_slots_frame (some [45, -122]) 960 500 false "OpenStreetMap"
    none 18 10 none sampleMap sampleOps (by rfl)

/-- C10: the click-to-add-marker mutator treats an empty popup text
exactly like an absent one — the call with the empty string produces the
identical state, and the stored fragment carries the default expression
displaying the clicked latitude and longitude, not an empty quoted
string literal. -/
theorem click_for_marker_empty_popup (m : Map) :
    m.click_for_marker (some "") = m.click_for_marker none ∧
    alistGet? (m.click_for_marker (some "")).template_vars "click_pop"
      = some (.str (renderTemplate "click_for_marker.txt"
          [("popup", .str latlngDefault)])) := by
  constructor
  · rfl
  · exact alistGet?_set_self _ _ _

end Folium
